import Mathlib

/-!
Verification of the PyAppleSerialChecker batch lookup pipeline.

This file gives a shallow embedding of `src/PyAppleSerialChecker.py`:
the response-classification chain of the main loop (lines 388-520), the
regex-based field extraction of the coverage-detail branch (lines
467-509), the captcha fetch/solve attempt loop (lines 334-364), the
invalid-captcha counter handling (lines 397-413), the per-serial
while-loop and the batch loop (lines 320-529), and the backoff delay
computation (lines 280-289).  Network interactions are modelled by an
explicit trace of network events consumed in program order.
-/

/-- Byte/character string containment test: `marker` occurs as a
contiguous substring of the remaining text.  Models Python's
`marker in response.content`. -/
def listContains (pat : List Char) : List Char → Bool
  | [] => pat.isPrefixOf []
  | c :: rest => pat.isPrefixOf (c :: rest) || listContains pat rest

/-- `containsMarker body marker` models `marker in response.content`. -/
def containsMarker (body marker : String) : Bool :=
  listContains marker.data body.data

/-- Header names and sentinel values from class `Head` of the source:
`Head.Status.not_found = "NOT_FOUND"`. -/
def Head.Status.not_found : String := "NOT_FOUND"

/-- `Head.Status.valid = "VALID"` from the source. -/
def Head.Status.valid : String := "VALID"

/-- One output row, mirroring the `RESULT_ENTRY` dictionaries built in the
main loop (keys `Serial Number`, `Product Name`, `Purchase Date`,
`Coverage Expiry`, `Status`). -/
structure ResultRecord where
  serial_number : String
  product_name : String
  purchase_date : String
  coverage_expiry : String
  status : String
deriving DecidableEq, Repr

/-! ### A small backtracking regex engine

The coverage-detail branch uses `re.search` with four patterns built from
literals, character classes, greedy `*`, `+`, `?` and counted repetition.
`RItem` is one pattern element; a pattern is a `List RItem`.  Matching is
Python-style: leftmost match, greedy quantifiers with backtracking.  The
fuel argument only bounds recursion depth; any value at least
`pattern size + input length` is enough, and callers always supply it. -/
inductive RItem where
  /-- a literal character sequence -/
  | lits : List Char → RItem
  /-- a single character of a class -/
  | one : (Char → Bool) → RItem
  /-- greedy `*` over a character class -/
  | star : (Char → Bool) → RItem
  /-- greedy `+` over a character class -/
  | plus : (Char → Bool) → RItem
  /-- greedy `?` over a character class -/
  | opt : (Char → Bool) → RItem
  /-- exactly `n` characters of a class -/
  | rep : (Char → Bool) → Nat → RItem

/-- `reMatch fuel items s` returns `some n` when the pattern matches a
prefix of `s` of length `n` (greedy, with backtracking, as Python `re`
matches at a fixed start position), `none` otherwise. -/
def reMatch : Nat → List RItem → List Char → Option Nat
  | 0, _, _ => none
  | _ + 1, [], _ => some 0
  | fuel + 1, RItem.lits l :: rest, s =>
    if l.isPrefixOf s then (reMatch fuel rest (s.drop l.length)).map (· + l.length)
    else none
  | fuel + 1, RItem.one p :: rest, s =>
    match s with
    | [] => none
    | c :: s' => if p c then (reMatch fuel rest s').map (· + 1) else none
  | fuel + 1, RItem.star p :: rest, s =>
    match s with
    | [] => reMatch fuel rest []
    | c :: s' =>
      if p c then
        match reMatch fuel (RItem.star p :: rest) s' with
        | some n => some (n + 1)
        | none => reMatch fuel rest (c :: s')
      else reMatch fuel rest (c :: s')
  | fuel + 1, RItem.plus p :: rest, s =>
    match s with
    | [] => none
    | c :: s' =>
      if p c then (reMatch fuel (RItem.star p :: rest) s').map (· + 1) else none
  | fuel + 1, RItem.opt p :: rest, s =>
    match s with
    | [] => reMatch fuel rest []
    | c :: s' =>
      if p c then
        match reMatch fuel rest s' with
        | some n => some (n + 1)
        | none => reMatch fuel rest (c :: s')
      else reMatch fuel rest (c :: s')
  | fuel + 1, RItem.rep p n :: rest, s =>
    match n with
    | 0 => reMatch fuel rest s
    | m + 1 =>
      match s with
      | [] => none
      | c :: s' =>
        if p c then (reMatch fuel (RItem.rep p m :: rest) s').map (· + 1) else none

/-- Fuel that is always sufficient for `reMatch` on input `s`: every
recursive step either drops a pattern item, consumes an input character,
or decrements a counted repetition. -/
def reFuel (items : List RItem) (s : List Char) : Nat :=
  s.length + items.length + items.foldr (fun i n => match i with
    | RItem.rep _ k => n + k
    | _ => n) 0 + 1

/-- `reSearch items s` models Python `re.search`: try a match at each
start position from the left, returning the matched text (`group(0)`) of
the leftmost match, or `none`. -/
def reSearch (items : List RItem) : List Char → Option (List Char)
  | [] =>
    match reMatch (reFuel items []) items [] with
    | some _ => some []
    | none => none
  | c :: s' =>
    match reMatch (reFuel items (c :: s')) items (c :: s') with
    | some n => some ((c :: s').take n)
    | none => reSearch items s'

/-- Python's `\s` class (ASCII range). -/
def isPySpace (c : Char) : Bool :=
  c = ' ' || c = '\t' || c = '\n' || c = '\x0d' || c = '\x0b' || c = '\x0c'

/-- Python's `\w` class (ASCII range): alphanumeric or underscore. -/
def isPyWord (c : Char) : Bool := c.isAlphanum || c = '_'

/-- Python `str.strip()`: remove leading and trailing whitespace. -/
def pyStrip (s : String) : String :=
  String.mk (((s.data.dropWhile isPySpace).reverse.dropWhile isPySpace).reverse)

/-- `PRODUCT_NAME_PATTERN = r"MacBook\s+[^\)]*\s*\([^\)]*\)"`. -/
def PRODUCT_NAME_PATTERN : List RItem :=
  [RItem.lits "MacBook".data, RItem.plus isPySpace, RItem.star (fun c => c ≠ ')'),
   RItem.star isPySpace, RItem.lits ['('], RItem.star (fun c => c ≠ ')'),
   RItem.lits [')']]

/-- `SERIAL_NUMBER_PATTERN = r"([A-Z]{1,2}\d{10})"`. -/
def SERIAL_NUMBER_PATTERN : List RItem :=
  [RItem.one (fun c => 'A' ≤ c && c ≤ 'Z'), RItem.opt (fun c => 'A' ≤ c && c ≤ 'Z'),
   RItem.rep Char.isDigit 10]

/-- `PURCHASE_DATE_PATTERN = r"(\w+\s\d{4})"`. -/
def PURCHASE_DATE_PATTERN : List RItem :=
  [RItem.plus isPyWord, RItem.one isPySpace, RItem.rep Char.isDigit 4]

/-- `COVERAGE_EXPIRY_PATTERN = r'Expires on\s*:\s*([^"]+)'`. -/
def COVERAGE_EXPIRY_PATTERN : List RItem :=
  [RItem.lits "Expires on".data, RItem.star isPySpace, RItem.lits [':'],
   RItem.star isPySpace, RItem.plus (fun c => c ≠ '"')]

/-- `get_match_or_default(match, default)` from the source: the whole
match `group(0)` stripped of surrounding whitespace, or the default when
there is no match. -/
def get_match_or_default (m : Option (List Char)) (default : String) : String :=
  match m with
  | some cs => pyStrip (String.mk cs)
  | none => default

/-- The `RESULT_ENTRY` built on the coverage-detail branch (lines
467-509): field extraction by `re.search` on the decoded body, each field
defaulting to `NOT_FOUND`, status `VALID`.  (The source also computes
`serial_number_match` from `SERIAL_NUMBER_PATTERN` but never uses it; the
serial column is the input serial.) -/
def coverageDetailEntry (serial_number body : String) : ResultRecord :=
  { serial_number := serial_number
    product_name := get_match_or_default (reSearch PRODUCT_NAME_PATTERN body.data)
      Head.Status.not_found
    purchase_date := get_match_or_default (reSearch PURCHASE_DATE_PATTERN body.data)
      Head.Status.not_found
    coverage_expiry := get_match_or_default (reSearch COVERAGE_EXPIRY_PATTERN body.data)
      Head.Status.not_found
    status := Head.Status.valid }

/-- Semantic outcome of one coverage POST, as consumed by the main loop:
the first two marker classes re-enter the loop, all others break out of
it carrying a finished `RESULT_ENTRY`. -/
inductive Outcome where
  | RateLimited : Outcome
  | CaptchaInvalid : Outcome
  | Terminal : ResultRecord → Outcome
deriving DecidableEq

/-- The classification chain of the main loop (lines 388-520): the raw
response body is tested against marker substrings in source order, first
match wins. -/
def classifyResponse (serial_number body : String) : Outcome :=
  if containsMarker body "process your request." then .RateLimited
  else if containsMarker body "The code you entered does not match" then .CaptchaInvalid
  else if containsMarker body "Please enter a valid serial number." then
    .Terminal ⟨serial_number, "N/A", "N/A", "N/A", "Invalid"⟩
  else if containsMarker body "Sign in to update purchase date" then
    .Terminal ⟨serial_number, "N/A", "N/A", "N/A", "Cannot verify purchase date"⟩
  else if containsMarker body "Your coverage includes the following benefits" ||
      containsMarker body "Coverage Expired" then
    .Terminal ⟨serial_number, "N/A", "N/A", "N/A", "Fully valid"⟩
  else if containsMarker body "We cannot process your request at this time." then
    .Terminal ⟨serial_number, "N/A", "N/A", "N/A", "Cannot process request"⟩
  else if containsMarker body "Apple coverage for your product" then
    .Terminal (coverageDetailEntry serial_number body)
  else .Terminal ⟨serial_number, "N/A", "N/A", "N/A", "Unknown"⟩

/-! ### The per-serial orchestration loop

Network interactions are modelled by a trace of events that the loop
consumes strictly in program order: each `get_auth_token()` call consumes
a `tok` event (`none` models the missing auth header), each
`fetch_captcha` + OCR round consumes a `fetch` event, and each coverage
POST consumes a `submit` event carrying the raw response body.  A trace
whose next event is not of the kind the program requests makes the run
`stuck` (no such run of the program exists). -/

/-- Result of one `fetch_captcha` round inside the attempt loop:
rate-limit marker present, an OCR answer extracted, or no answer (empty
OCR result or missing `binaryValue`). -/
inductive FetchEvent where
  | rateLimited : FetchEvent
  | ocrSuccess : String → FetchEvent
  | ocrFail : FetchEvent
deriving DecidableEq

/-- One network interaction, consumed in program order. -/
inductive NetEvent where
  | tok : Option String → NetEvent
  | fetch : FetchEvent → NetEvent
  | submit : String → NetEvent
deriving DecidableEq

/-- Result of the captcha attempt loop (`for attempt in range(3)`,
lines 334-364): an OCR answer with the remaining trace, exhaustion of the
attempt budget with the remaining trace, or a trace mismatch. -/
inductive SolveRes where
  | solved : String → List NetEvent → SolveRes
  | exhausted : List NetEvent → SolveRes
  | stuck : SolveRes
deriving DecidableEq

/-- The captcha attempt loop: up to `budget` fetch rounds (the source
uses `range(3)`); a rate-limited round backs off and a failed OCR round
retries, both consuming one attempt; the first OCR answer breaks out. -/
def solveCaptcha : Nat → List NetEvent → SolveRes
  | 0, tr => .exhausted tr
  | _ + 1, [] => .stuck
  | b + 1, NetEvent.fetch FetchEvent.rateLimited :: tr => solveCaptcha b tr
  | _ + 1, NetEvent.fetch (FetchEvent.ocrSuccess a) :: tr => .solved a tr
  | b + 1, NetEvent.fetch FetchEvent.ocrFail :: tr => solveCaptcha b tr
  | _ + 1, NetEvent.tok _ :: _ => .stuck
  | _ + 1, NetEvent.submit _ :: _ => .stuck

/-- Result of processing one serial: a terminal `RESULT_ENTRY` plus the
unconsumed trace, a `sys.exit(0)` abort (token unavailable), or a trace
mismatch / out of fuel.  Each constructor carries the `log` of values
assigned to `CAPTCHA_INVALID_COUNT` during the run, in program order. -/
inductive SerialRes where
  | done : List Nat → ResultRecord → List NetEvent → SerialRes
  | aborted : List Nat → List NetEvent → SerialRes
  | stuck : List Nat → SerialRes
deriving DecidableEq

/-- Prepend one `CAPTCHA_INVALID_COUNT` assignment to the log of a run. -/
def SerialRes.push (v : Nat) : SerialRes → SerialRes
  | .done l r rest => .done (v :: l) r rest
  | .aborted l rest => .aborted (v :: l) rest
  | .stuck l => .stuck (v :: l)

/-- The log of `CAPTCHA_INVALID_COUNT` assignments of a run. -/
def SerialRes.log : SerialRes → List Nat
  | .done l _ _ => l
  | .aborted l _ => l
  | .stuck l => l

/-- The `while True` loop of the main loop (lines 329-520), with
`c` the current `CAPTCHA_INVALID_COUNT`.  Each iteration runs the captcha
attempt loop with a fresh budget of 3; on exhaustion the token is
refreshed (`sys.exit(0)` when unavailable) and the loop re-enters with
`c` unchanged; on an OCR answer the coverage POST is issued and its body
classified: `RateLimited` re-enters with the same token and counter,
`CaptchaInvalid` increments the counter and, at 6, refreshes the token
and resets the counter to 0; any other outcome is terminal. -/
def runLoop (serial_number : String) : Nat → Nat → List NetEvent → SerialRes
  | 0, _, _ => .stuck []
  | fuel + 1, c, tr =>
    match solveCaptcha 3 tr with
    | .stuck => .stuck []
    | .exhausted tr' =>
      match tr' with
      | NetEvent.tok none :: tr'' => .aborted [] tr''
      | NetEvent.tok (some _) :: tr'' => runLoop serial_number fuel c tr''
      | _ => .stuck []
    | .solved _ tr' =>
      match tr' with
      | NetEvent.submit body :: tr'' =>
        match classifyResponse serial_number body with
        | .RateLimited => runLoop serial_number fuel c tr''
        | .CaptchaInvalid =>
          if c + 1 ≥ 6 then
            match tr'' with
            | NetEvent.tok none :: tr3 => .aborted [c + 1] tr3
            | NetEvent.tok (some _) :: tr3 =>
              ((runLoop serial_number fuel 0 tr3).push 0).push (c + 1)
            | _ => .stuck [c + 1]
          else (runLoop serial_number fuel (c + 1) tr'').push (c + 1)
        | .Terminal r => .done [] r tr''
      | _ => .stuck []

/-- Processing of one serial (lines 320-520): acquire the initial token
(`sys.exit(0)` when unavailable), initialize `CAPTCHA_INVALID_COUNT = 0`,
then enter the `while True` loop. -/
def runSerial (serial_number : String) (fuel : Nat) : List NetEvent → SerialRes
  | NetEvent.tok none :: tr => .aborted [] tr
  | NetEvent.tok (some _) :: tr => (runLoop serial_number fuel 0 tr).push 0
  | _ => .stuck []

/-- Result of the whole batch: all serials processed (with the ordered
output rows), aborted by `sys.exit(0)` mid-batch (with the rows appended
so far), or a trace mismatch / out of fuel. -/
inductive BatchRes where
  | finished : List ResultRecord → BatchRes
  | abortedBatch : List ResultRecord → BatchRes
  | stuckBatch : BatchRes
deriving DecidableEq

/-- The `for serial_number in serial_numbers` loop: each serial is fully
processed and its single `RESULT_ENTRY` appended (`out ++ [r]` is the
only mutation of the output) before the next serial starts. -/
def runBatch (fuel : Nat) : List String → List NetEvent → List ResultRecord → BatchRes
  | [], _, out => .finished out
  | s :: ss, tr, out =>
    match runSerial s fuel tr with
    | .done _ r tr' => runBatch fuel ss tr' (out ++ [r])
    | .aborted _ _ => .abortedBatch out
    | .stuck _ => .stuckBatch

/-- Exit status of the process: `sys.exit(0)` when no serials were loaded
(line 302), `sys.exit(0)` on any token-acquisition failure (lines 325,
374, 411), and falling off the end after the loop is status 0 as well.
`none` models a run the trace does not determine (stuck / out of fuel). -/
def mainExit (serial_numbers : List String) (fuel : Nat) (tr : List NetEvent) :
    Option Nat :=
  if serial_numbers.isEmpty then some 0
  else
    match runBatch fuel serial_numbers tr [] with
    | .finished _ => some 0
    | .abortedBatch _ => some 0
    | .stuckBatch => none

/-! ### The backoff computation (lines 280-289) -/

/-- `wait_time = min(60, 2**retry_attempt)` from `exponential_backoff`. -/
def wait_time (retry_attempt : Nat) : Nat := min 60 (2 ^ retry_attempt)

/-- `random_wait = random.uniform(0.5, 1.5) * wait_time`: the slept
duration as a function of the sampled jitter factor. -/
def random_wait (jitter : ℚ) (retry_attempt : Nat) : ℚ :=
  jitter * (wait_time retry_attempt : ℚ)

/-! ### Helper lemmas -/

/-- Every terminal branch of the classification chain puts the input
serial into the `Serial Number` column. -/
lemma classify_terminal_serial (serial_number body : String) (r : ResultRecord)
    (h : classifyResponse serial_number body = Outcome.Terminal r) :
    r.serial_number = serial_number := by
  unfold classifyResponse at h
  repeat' split at h
  all_goals first
    | exact Outcome.noConfusion h
    | (cases h; rfl)

lemma SerialRes.push_log (x : SerialRes) (v : Nat) : (x.push v).log = v :: x.log := by
  cases x <;> rfl

lemma SerialRes.push_done (x : SerialRes) (v : Nat) (l : List Nat) (r : ResultRecord)
    (rest : List NetEvent) (h : x.push v = SerialRes.done l r rest) :
    ∃ l', x = SerialRes.done l' r rest := by
  cases x with
  | done l0 r0 rest0 =>
    simp only [SerialRes.push, SerialRes.done.injEq] at h
    exact ⟨l0, by rw [h.2.1, h.2.2]⟩
  | aborted l0 rest0 => exact SerialRes.noConfusion h
  | stuck l0 => exact SerialRes.noConfusion h

/-- The captcha attempt loop consumes at most its budget of fetch events
before producing an answer. -/
lemma solveCaptcha_solved_length :
    ∀ (b : Nat) (tr : List NetEvent) (a : String) (rest : List NetEvent),
      solveCaptcha b tr = SolveRes.solved a rest → tr.length ≤ b + rest.length := by
  intro b
  induction b with
  | zero => intro tr a rest h; exact SolveRes.noConfusion h
  | succ b ih =>
    intro tr a rest h
    match tr with
    | [] => exact SolveRes.noConfusion h
    | NetEvent.fetch FetchEvent.rateLimited :: tr' =>
      have := ih tr' a rest h
      simpa [Nat.succ_le_succ, Nat.add_right_comm] using Nat.succ_le_succ this
    | NetEvent.fetch (FetchEvent.ocrSuccess a') :: tr' =>
      simp only [solveCaptcha, SolveRes.solved.injEq] at h
      rw [← h.2]
      simp only [List.length_cons]
      omega
    | NetEvent.fetch FetchEvent.ocrFail :: tr' =>
      have := ih tr' a rest h
      simpa [Nat.add_right_comm] using Nat.succ_le_succ this
    | NetEvent.tok t :: tr' => exact SolveRes.noConfusion h
    | NetEvent.submit b' :: tr' => exact SolveRes.noConfusion h

/-- The captcha attempt loop signals exhaustion exactly when its whole
budget of fetch events yielded no answer. -/
lemma solveCaptcha_exhausted_length :
    ∀ (b : Nat) (tr rest : List NetEvent),
      solveCaptcha b tr = SolveRes.exhausted rest → tr.length = b + rest.length := by
  intro b
  induction b with
  | zero =>
    intro tr rest h
    simp only [solveCaptcha, SolveRes.exhausted.injEq] at h
    rw [h]
    omega
  | succ b ih =>
    intro tr rest h
    match tr with
    | [] => exact SolveRes.noConfusion h
    | NetEvent.fetch FetchEvent.rateLimited :: tr' =>
      have := ih tr' rest h
      simp [this]
      omega
    | NetEvent.fetch (FetchEvent.ocrSuccess a') :: tr' => exact SolveRes.noConfusion h
    | NetEvent.fetch FetchEvent.ocrFail :: tr' =>
      have := ih tr' rest h
      simp [this]
      omega
    | NetEvent.tok t :: tr' => exact SolveRes.noConfusion h
    | NetEvent.submit b' :: tr' => exact SolveRes.noConfusion h

/-- Invariant: starting any while-iteration with `CAPTCHA_INVALID_COUNT ≤ 5`,
every value ever assigned to the counter stays at most 6. -/
lemma runLoop_log_le (s : String) :
    ∀ (fuel c : Nat) (tr : List NetEvent), c ≤ 5 →
      ∀ v ∈ (runLoop s fuel c tr).log, v ≤ 6 := by
  intro fuel
  induction fuel with
  | zero =>
    intro c tr _ v hv
    simp [runLoop, SerialRes.log] at hv
  | succ fuel ih =>
    intro c tr hc v hv
    simp only [runLoop] at hv
    split at hv
    · simp [SerialRes.log] at hv
    · split at hv
      · simp [SerialRes.log] at hv
      · exact ih c _ hc v hv
      · simp [SerialRes.log] at hv
    · split at hv
      · split at hv
        · exact ih c _ hc v hv
        · split at hv
          · split at hv
            · simp [SerialRes.log] at hv
              omega
            · rw [SerialRes.push_log, SerialRes.push_log] at hv
              simp only [List.mem_cons] at hv
              rcases hv with rfl | rfl | hv3
              · omega
              · omega
              · exact ih 0 _ (by omega) v hv3
            · simp [SerialRes.log] at hv
              omega
          · rw [SerialRes.push_log] at hv
            simp only [List.mem_cons] at hv
            rcases hv with rfl | hv2
            · omega
            · exact ih (c + 1) _ (by omega) v hv2
        · simp [SerialRes.log] at hv
      · simp [SerialRes.log] at hv

/-- Over a whole per-serial run the invalid-captcha counter stays below 7. -/
lemma runSerial_log_bound (s : String) (fuel : Nat) (tr : List NetEvent) :
    ∀ v ∈ (runSerial s fuel tr).log, v < 7 := by
  intro v hv
  match tr with
  | [] => simp [runSerial, SerialRes.log] at hv
  | NetEvent.tok none :: tr' => simp [runSerial, SerialRes.log] at hv
  | NetEvent.tok (some t) :: tr' =>
    simp only [runSerial, SerialRes.push_log, List.mem_cons] at hv
    rcases hv with rfl | hv'
    · omega
    · have := runLoop_log_le s fuel 0 tr' (by omega) v hv'
      omega
  | NetEvent.fetch e :: tr' => simp [runSerial, SerialRes.log] at hv
  | NetEvent.submit b :: tr' => simp [runSerial, SerialRes.log] at hv

/-- A terminal row produced by the while-loop carries the input serial. -/
lemma runLoop_done_serial (s : String) :
    ∀ (fuel c : Nat) (tr : List NetEvent) (l : List Nat) (r : ResultRecord)
      (rest : List NetEvent), runLoop s fuel c tr = SerialRes.done l r rest →
      r.serial_number = s := by
  intro fuel
  induction fuel with
  | zero =>
    intro c tr l r rest h
    exact SerialRes.noConfusion h
  | succ fuel ih =>
    intro c tr l r rest h
    simp only [runLoop] at h
    split at h
    · exact SerialRes.noConfusion h
    · split at h
      · exact SerialRes.noConfusion h
      · exact ih c _ l r rest h
      · exact SerialRes.noConfusion h
    · split at h
      · split at h
        · exact ih c _ l r rest h
        · split at h
          · split at h
            · exact SerialRes.noConfusion h
            · obtain ⟨l1, h1⟩ := SerialRes.push_done _ _ _ _ _ h
              obtain ⟨l2, h2⟩ := SerialRes.push_done _ _ _ _ _ h1
              exact ih 0 _ l2 r rest h2
            · exact SerialRes.noConfusion h
          · obtain ⟨l1, h1⟩ := SerialRes.push_done _ _ _ _ _ h
            exact ih (c + 1) _ l1 r rest h1
        · rename_i hclass
          simp only [SerialRes.done.injEq] at h
          rw [← h.2.1] at *
          exact classify_terminal_serial s _ _ hclass
      · exact SerialRes.noConfusion h

/-- A finished per-serial run carries the input serial in its row. -/
lemma runSerial_done_serial (s : String) (fuel : Nat) (tr : List NetEvent)
    (l : List Nat) (r : ResultRecord) (rest : List NetEvent)
    (h : runSerial s fuel tr = SerialRes.done l r rest) :
    r.serial_number = s := by
  match tr with
  | [] => exact SerialRes.noConfusion h
  | NetEvent.tok none :: tr' => exact SerialRes.noConfusion h
  | NetEvent.tok (some t) :: tr' =>
    simp only [runSerial] at h
    obtain ⟨l1, h1⟩ := SerialRes.push_done _ _ _ _ _ h
    exact runLoop_done_serial s fuel 0 tr' l1 r rest h1
  | NetEvent.fetch e :: tr' => exact SerialRes.noConfusion h
  | NetEvent.submit b :: tr' => exact SerialRes.noConfusion h

/-- A finished batch extends the accumulated output only by appending,
one row per remaining serial, in input order. -/
lemma runBatch_finished_map (fuel : Nat) :
    ∀ (ss : List String) (tr : List NetEvent) (acc out : List ResultRecord),
      runBatch fuel ss tr acc = BatchRes.finished out →
      ∃ recs, out = acc ++ recs ∧ recs.map ResultRecord.serial_number = ss := by
  intro ss
  induction ss with
  | nil =>
    intro tr acc out h
    simp only [runBatch, BatchRes.finished.injEq] at h
    exact ⟨[], by simp [h]⟩
  | cons s ss ih =>
    intro tr acc out h
    simp only [runBatch] at h
    split at h
    · rename_i l r tr' hser
      obtain ⟨recs, hout, hmap⟩ := ih tr' (acc ++ [r]) out h
      refine ⟨r :: recs, ?_, ?_⟩
      · simp [hout]
      · simp [hmap, runSerial_done_serial s fuel tr l r tr' hser]
    · exact BatchRes.noConfusion h
    · exact BatchRes.noConfusion h

/-! ### Claim theorems -/

/-- C2: the coverage-query classification tests the raw body against
marker substrings in a fixed priority order, first match winning: any
body containing both the rate-limit marker `process your request.` and
the coverage-detail marker `Apple coverage for your product` classifies
as `RateLimited`. -/
theorem c2_rate_limited_priority (serial_number body : String)
    (h1 : containsMarker body "process your request." = true)
    (_h2 : containsMarker body "Apple coverage for your product" = true) :
    classifyResponse serial_number body = Outcome.RateLimited := by
  simp [classifyResponse, h1]

theorem c2_rate_limited_priority_witness :
    containsMarker "process your request. Apple coverage for your product"
      "process your request." = true ∧
    containsMarker "process your request. Apple coverage for your product"
      "Apple coverage for your product" = true ∧
    classifyResponse "S" "process your request. Apple coverage for your product" =
      Outcome.RateLimited :=
  ⟨by decide, by decide,
   c2_rate_limited_priority "S" _ (by decide) (by decide)⟩

/-- C7: when the coverage-benefits-present or coverage-expired marker
matches and no higher-priority marker does, the produced row has status
`Fully valid` and no field extraction is performed: product name,
purchase date and coverage expiry are all the `N/A` sentinel. -/
theorem c7_fully_valid_no_extraction (serial_number body : String)
    (h1 : containsMarker body "process your request." = false)
    (h2 : containsMarker body "The code you entered does not match" = false)
    (h3 : containsMarker body "Please enter a valid serial number." = false)
    (h4 : containsMarker body "Sign in to update purchase date" = false)
    (h5 : containsMarker body "Your coverage includes the following benefits" = true ∨
          containsMarker body "Coverage Expired" = true) :
    classifyResponse serial_number body =
      Outcome.Terminal ⟨serial_number, "N/A", "N/A", "N/A", "Fully valid"⟩ := by
  rcases h5 with h5 | h5 <;> simp [classifyResponse, h1, h2, h3, h4, h5]

theorem c7_fully_valid_no_extraction_witness :
    (containsMarker "Coverage Expired" "process your request." = false ∧
     containsMarker "Coverage Expired" "The code you entered does not match" = false ∧
     containsMarker "Coverage Expired" "Please enter a valid serial number." = false ∧
     containsMarker "Coverage Expired" "Sign in to update purchase date" = false ∧
     containsMarker "Coverage Expired" "Coverage Expired" = true) ∧
    classifyResponse "S" "Coverage Expired" =
      Outcome.Terminal ⟨"S", "N/A", "N/A", "N/A", "Fully valid"⟩ :=
  ⟨⟨by decide, by decide, by decide, by decide, by decide⟩,
   c7_fully_valid_no_extraction "S" "Coverage Expired"
     (by decide) (by decide) (by decide) (by decide) (Or.inr (by decide))⟩

/-- C9: on every terminal classification branch the `Serial Number`
column of the emitted row equals the input serial being processed, for
every response body — in particular a serial echoed in the
coverage-detail body is never used for this column. -/
theorem c9_serial_column_is_input (serial_number body : String) (r : ResultRecord)
    (h : classifyResponse serial_number body = Outcome.Terminal r) :
    r.serial_number = serial_number :=
  classify_terminal_serial serial_number body r h

theorem c9_serial_column_is_input_witness :
    classifyResponse "INPUT" "Apple coverage for your product, serial AB1234567890." =
      Outcome.Terminal ⟨"INPUT", "NOT_FOUND", "NOT_FOUND", "NOT_FOUND", "VALID"⟩ ∧
    (⟨"INPUT", "NOT_FOUND", "NOT_FOUND", "NOT_FOUND", "VALID"⟩ :
      ResultRecord).serial_number = "INPUT" :=
  ⟨by decide,
   c9_serial_column_is_input "INPUT"
     "Apple coverage for your product, serial AB1234567890." _ (by decide)⟩

/-- C5 (counterexample): the claim puts the attempt=1 delay in
`[1·0.5, 1·1.5]`, but `min(60, 2**1) = 2`, so the jitter factor `1.0`
(inside `[0.5, 1.5]`) yields a delay of `2`, outside `[0.5, 1.5]`. -/
theorem c5_backoff_counterexample :
    ((1 : ℚ) / 2 ≤ 1 ∧ (1 : ℚ) ≤ 3 / 2) ∧
    random_wait 1 1 = 2 ∧ ¬ random_wait 1 1 ≤ 3 / 2 := by
  refine ⟨⟨by norm_num, by norm_num⟩, ?_, ?_⟩ <;> norm_num [random_wait, wait_time]

/-- C5 (amended): for every attempt `n` the delay equals
`min(60, 2^n)` multiplied by the jitter factor; for attempt 1 the delay
lies in `[2·0.5, 2·1.5] = [1, 3]` seconds, and for attempt 6 the
pre-jitter base is capped at 60. -/
theorem c5_backoff_amended (n : Nat) (j : ℚ) (h1 : 1 / 2 ≤ j) (h2 : j ≤ 3 / 2) :
    random_wait j n = j * ((min 60 (2 ^ n) : Nat) : ℚ) ∧
    1 ≤ random_wait j 1 ∧ random_wait j 1 ≤ 3 ∧
    wait_time 6 = 60 := by
  have hw : ((wait_time 1 : Nat) : ℚ) = 2 := by norm_num [wait_time]
  refine ⟨rfl, ?_, ?_, by norm_num [wait_time]⟩ <;>
    (unfold random_wait; rw [hw]; linarith)

theorem c5_backoff_amended_witness :
    ((1 : ℚ) / 2 ≤ 1 ∧ (1 : ℚ) ≤ 3 / 2) ∧
    (random_wait 1 6 = 1 * ((min 60 (2 ^ 6) : Nat) : ℚ) ∧
     1 ≤ random_wait 1 1 ∧ random_wait 1 1 ≤ 3 ∧ wait_time 6 = 60) :=
  ⟨⟨by norm_num, by norm_num⟩, c5_backoff_amended 6 1 (by norm_num) (by norm_num)⟩

/-- C6 (code bug): on the coverage-detail branch the source stores
`match.group(0).strip()` — the whole regex match — for every field, and
`COVERAGE_EXPIRY_PATTERN`'s date capture group `([^"]+)` is never used.
For the body `Apple coverage for your product Expires on: "2026-01-01"`
the expiry column therefore holds `Expires on:` (the quote makes `[^"]+`
backtrack onto the separating space), not `2026-01-01`.  The same
evaluation shows the claim's true half: the purchase-date pattern does
not match this body, so the purchase-date column holds the `NOT_FOUND`
sentinel. -/
theorem c6_expiry_group0_eval :
    classifyResponse "SER"
        "Apple coverage for your product Expires on: \"2026-01-01\"" =
      Outcome.Terminal ⟨"SER", "NOT_FOUND", "NOT_FOUND", "Expires on:", "VALID"⟩ ∧
    "Expires on:" ≠ "2026-01-01" ∧
    reSearch PURCHASE_DATE_PATTERN
        "Apple coverage for your product Expires on: \"2026-01-01\"".data = none :=
  ⟨by decide, by decide, by decide⟩

/-- C1: a batch run that processes every identifier appends exactly one
row per input serial, and the rows appear in input order (the output is
only ever extended by appending: every step passes `out ++ [r]`). -/
theorem c1_one_row_per_serial_in_order (fuel : Nat) (serial_numbers : List String)
    (tr : List NetEvent) (out : List ResultRecord)
    (h : runBatch fuel serial_numbers tr [] = BatchRes.finished out) :
    out.map ResultRecord.serial_number = serial_numbers ∧
    out.length = serial_numbers.length := by
  obtain ⟨recs, hout, hmap⟩ := runBatch_finished_map fuel serial_numbers tr [] out h
  simp only [List.nil_append] at hout
  subst hout
  exact ⟨hmap, by rw [← hmap]; simp⟩

theorem c1_one_row_per_serial_in_order_witness :
    runBatch 2 ["A", "B"]
        [NetEvent.tok (some "t1"), NetEvent.fetch (FetchEvent.ocrSuccess "c1"),
         NetEvent.submit "Please enter a valid serial number.",
         NetEvent.tok (some "t2"), NetEvent.fetch (FetchEvent.ocrSuccess "c2"),
         NetEvent.submit "Coverage Expired"] [] =
      BatchRes.finished
        [⟨"A", "N/A", "N/A", "N/A", "Invalid"⟩,
         ⟨"B", "N/A", "N/A", "N/A", "Fully valid"⟩] ∧
    ([⟨"A", "N/A", "N/A", "N/A", "Invalid"⟩,
      ⟨"B", "N/A", "N/A", "N/A", "Fully valid"⟩] :
        List ResultRecord).map ResultRecord.serial_number = ["A", "B"] ∧
    ([⟨"A", "N/A", "N/A", "N/A", "Invalid"⟩,
      ⟨"B", "N/A", "N/A", "N/A", "Fully valid"⟩] :
        List ResultRecord).length = (["A", "B"] : List String).length :=
  ⟨by decide,
   c1_one_row_per_serial_in_order 2 ["A", "B"]
     [NetEvent.tok (some "t1"), NetEvent.fetch (FetchEvent.ocrSuccess "c1"),
      NetEvent.submit "Please enter a valid serial number.",
      NetEvent.tok (some "t2"), NetEvent.fetch (FetchEvent.ocrSuccess "c2"),
      NetEvent.submit "Coverage Expired"] _ (by decide)⟩

/-- C3: every value ever held by `CAPTCHA_INVALID_COUNT` during a
per-serial run is below 7; a `CaptchaInvalid` outcome increments the
counter, and below 6 the loop re-enters with the same token (no token
event is consumed) while at exactly 6 a new token is consumed and the
counter continues at 0. -/
theorem c3_invalid_counter_bounded :
    (∀ (s : String) (fuel : Nat) (tr : List NetEvent) (v : Nat),
        v ∈ (runSerial s fuel tr).log → v < 7) ∧
    (∀ (s : String) (fuel c : Nat) (a body : String) (tr tr' : List NetEvent),
        solveCaptcha 3 tr = SolveRes.solved a (NetEvent.submit body :: tr') →
        classifyResponse s body = Outcome.CaptchaInvalid →
        c + 1 < 6 →
        runLoop s (fuel + 1) c tr = (runLoop s fuel (c + 1) tr').push (c + 1)) ∧
    (∀ (s : String) (fuel c : Nat) (a body t : String) (tr tr' tr3 : List NetEvent),
        solveCaptcha 3 tr = SolveRes.solved a (NetEvent.submit body :: tr') →
        classifyResponse s body = Outcome.CaptchaInvalid →
        c + 1 = 6 →
        tr' = NetEvent.tok (some t) :: tr3 →
        runLoop s (fuel + 1) c tr = ((runLoop s fuel 0 tr3).push 0).push (c + 1)) := by
  refine ⟨fun s fuel tr v hv => runSerial_log_bound s fuel tr v hv, ?_, ?_⟩
  · intro s fuel c a body tr tr' h1 h2 hlt
    simp only [runLoop, h1, h2]
    rw [if_neg (by omega)]
  · intro s fuel c a body t tr tr' tr3 h1 h2 hc6 htr
    subst htr
    simp only [runLoop, h1, h2]
    rw [if_pos (by omega)]

theorem c3_invalid_counter_bounded_witness :
    1 ∈ (runSerial "A" 3
        [NetEvent.tok (some "T"), NetEvent.fetch (FetchEvent.ocrSuccess "x"),
         NetEvent.submit "The code you entered does not match",
         NetEvent.fetch (FetchEvent.ocrSuccess "y"),
         NetEvent.submit "Please enter a valid serial number."]).log ∧
    1 < 7 :=
  ⟨by decide,
   c3_invalid_counter_bounded.1 "A" 3
     [NetEvent.tok (some "T"), NetEvent.fetch (FetchEvent.ocrSuccess "x"),
      NetEvent.submit "The code you entered does not match",
      NetEvent.fetch (FetchEvent.ocrSuccess "y"),
      NetEvent.submit "Please enter a valid serial number."] 1 (by decide)⟩

/-- C4: one invocation of the captcha attempt loop consumes at most 3
fetch events; exhaustion is signalled exactly when the full budget of 3
yielded no OCR answer, and then the loop consumes a token event — a
fresh token — before any further fetch with this identifier (a missing
token aborts instead). -/
theorem c4_solver_attempt_budget :
    (∀ (tr : List NetEvent) (a : String) (rest : List NetEvent),
        solveCaptcha 3 tr = SolveRes.solved a rest →
        tr.length ≤ 3 + rest.length) ∧
    (∀ (tr rest : List NetEvent),
        solveCaptcha 3 tr = SolveRes.exhausted rest →
        tr.length = 3 + rest.length) ∧
    (∀ (s : String) (fuel c : Nat) (t : String) (tr rest tr' : List NetEvent),
        solveCaptcha 3 tr = SolveRes.exhausted rest →
        rest = NetEvent.tok (some t) :: tr' →
        runLoop s (fuel + 1) c tr = runLoop s fuel c tr') ∧
    (∀ (s : String) (fuel c : Nat) (tr rest tr' : List NetEvent),
        solveCaptcha 3 tr = SolveRes.exhausted rest →
        rest = NetEvent.tok none :: tr' →
        runLoop s (fuel + 1) c tr = SerialRes.aborted [] tr') := by
  refine ⟨solveCaptcha_solved_length 3, solveCaptcha_exhausted_length 3, ?_, ?_⟩
  · intro s fuel c t tr rest tr' h1 h2
    subst h2
    simp only [runLoop, h1]
  · intro s fuel c tr rest tr' h1 h2
    subst h2
    simp only [runLoop, h1]

theorem c4_solver_attempt_budget_witness :
    solveCaptcha 3
        [NetEvent.fetch FetchEvent.ocrFail, NetEvent.fetch FetchEvent.rateLimited,
         NetEvent.fetch FetchEvent.ocrFail, NetEvent.tok (some "T")] =
      SolveRes.exhausted [NetEvent.tok (some "T")] ∧
    ([NetEvent.fetch FetchEvent.ocrFail, NetEvent.fetch FetchEvent.rateLimited,
      NetEvent.fetch FetchEvent.ocrFail, NetEvent.tok (some "T")] :
        List NetEvent).length =
      3 + ([NetEvent.tok (some "T")] : List NetEvent).length ∧
    runLoop "A" 1 0
        [NetEvent.fetch FetchEvent.ocrFail, NetEvent.fetch FetchEvent.rateLimited,
         NetEvent.fetch FetchEvent.ocrFail, NetEvent.tok (some "T")] =
      runLoop "A" 0 0 [] :=
  ⟨by decide,
   c4_solver_attempt_budget.2.1
     [NetEvent.fetch FetchEvent.ocrFail, NetEvent.fetch FetchEvent.rateLimited,
      NetEvent.fetch FetchEvent.ocrFail, NetEvent.tok (some "T")]
     [NetEvent.tok (some "T")] (by decide),
   c4_solver_attempt_budget.2.2.1 "A" 0 0 "T"
     [NetEvent.fetch FetchEvent.ocrFail, NetEvent.fetch FetchEvent.rateLimited,
      NetEvent.fetch FetchEvent.ocrFail, NetEvent.tok (some "T")]
     [NetEvent.tok (some "T")] [] (by decide) (by decide)⟩

/-- C8 (counterexample): the invalid-captcha counter is NOT reset on the
token acquisition triggered by captcha-fetch exhaustion.  Entering an
iteration with counter 1, three failed fetches followed by a successful
token refresh continue the loop with counter still 1 — and continuing
with 1 is observably different from continuing with 0 (the assignment
log of the run differs). -/
theorem c8_counter_not_reset_counterexample :
    runLoop "A" 9 1
        [NetEvent.fetch FetchEvent.ocrFail, NetEvent.fetch FetchEvent.ocrFail,
         NetEvent.fetch FetchEvent.ocrFail, NetEvent.tok (some "T2"),
         NetEvent.fetch (FetchEvent.ocrSuccess "x"),
         NetEvent.submit "The code you entered does not match",
         NetEvent.fetch (FetchEvent.ocrSuccess "y"),
         NetEvent.submit "Please enter a valid serial number."] =
      runLoop "A" 8 1
        [NetEvent.fetch (FetchEvent.ocrSuccess "x"),
         NetEvent.submit "The code you entered does not match",
         NetEvent.fetch (FetchEvent.ocrSuccess "y"),
         NetEvent.submit "Please enter a valid serial number."] ∧
    runLoop "A" 8 1
        [NetEvent.fetch (FetchEvent.ocrSuccess "x"),
         NetEvent.submit "The code you entered does not match",
         NetEvent.fetch (FetchEvent.ocrSuccess "y"),
         NetEvent.submit "Please enter a valid serial number."] ≠
      runLoop "A" 8 0
        [NetEvent.fetch (FetchEvent.ocrSuccess "x"),
         NetEvent.submit "The code you entered does not match",
         NetEvent.fetch (FetchEvent.ocrSuccess "y"),
         NetEvent.submit "Please enter a valid serial number."] :=
  ⟨by decide, by decide⟩

/-- C8 (amended): the captcha-fetch attempt budget is a fresh 3 on every
while-iteration, hence in particular after every token acquisition; the
invalid-captcha counter is reset to 0 when the per-identifier initial
token is acquired and when the cap-triggered refresh occurs, but it is
NOT reset on the token refresh triggered by fetch exhaustion, where the
loop continues with the counter unchanged. -/
theorem c8_counter_scoping_amended :
    (∀ (s : String) (fuel : Nat) (t : String) (tr : List NetEvent),
        runSerial s fuel (NetEvent.tok (some t) :: tr) =
          (runLoop s fuel 0 tr).push 0) ∧
    (∀ (s : String) (fuel c : Nat) (t : String) (tr rest tr' : List NetEvent),
        solveCaptcha 3 tr = SolveRes.exhausted rest →
        rest = NetEvent.tok (some t) :: tr' →
        runLoop s (fuel + 1) c tr = runLoop s fuel c tr') ∧
    (∀ (s : String) (fuel c : Nat) (a body t : String) (tr tr' tr3 : List NetEvent),
        solveCaptcha 3 tr = SolveRes.solved a (NetEvent.submit body :: tr') →
        classifyResponse s body = Outcome.CaptchaInvalid →
        c + 1 ≥ 6 →
        tr' = NetEvent.tok (some t) :: tr3 →
        runLoop s (fuel + 1) c tr =
          ((runLoop s fuel 0 tr3).push 0).push (c + 1)) := by
  refine ⟨fun s fuel t tr => rfl, ?_, ?_⟩
  · intro s fuel c t tr rest tr' h1 h2
    subst h2
    simp only [runLoop, h1]
  · intro s fuel c a body t tr tr' tr3 h1 h2 hc6 htr
    subst htr
    simp only [runLoop, h1, h2]
    rw [if_pos hc6]

theorem c8_counter_scoping_amended_witness :
    runSerial "B" 2 [NetEvent.tok (some "U")] = (runLoop "B" 2 0 []).push 0 ∧
    runLoop "B" 3 2
        [NetEvent.fetch FetchEvent.rateLimited, NetEvent.fetch FetchEvent.ocrFail,
         NetEvent.fetch FetchEvent.ocrFail, NetEvent.tok (some "U2")] =
      runLoop "B" 2 2 [] :=
  ⟨c8_counter_scoping_amended.1 "B" 2 "U" [],
   c8_counter_scoping_amended.2.1 "B" 2 2 "U2"
     [NetEvent.fetch FetchEvent.rateLimited, NetEvent.fetch FetchEvent.ocrFail,
      NetEvent.fetch FetchEvent.ocrFail, NetEvent.tok (some "U2")]
     [NetEvent.tok (some "U2")] [] (by decide) (by decide)⟩

/-- C10: every terminating run of the process exits with status 0: the
empty-serial-list abort (line 302), every token-acquisition failure
(lines 325, 374, 411) and normal completion all call `sys.exit(0)` or
fall off the end of the script. -/
theorem c10_exit_status_zero (serial_numbers : List String) (fuel : Nat)
    (tr : List NetEvent) (code : Nat)
    (h : mainExit serial_numbers fuel tr = some code) : code = 0 := by
  unfold mainExit at h
  split at h
  · exact (Option.some.inj h).symm
  · split at h
    · exact (Option.some.inj h).symm
    · exact (Option.some.inj h).symm
    · exact Option.noConfusion h

theorem c10_exit_status_zero_witness :
    mainExit ["A"] 1 [NetEvent.tok none] = some 0 ∧ (0 : Nat) = 0 :=
  ⟨by decide, c10_exit_status_zero ["A"] 1 [NetEvent.tok none] 0 (by decide)⟩
